import Mathlib

/-!
Shallow embedding of the deterministic core of the Study-Buddy-Agent
repository: the student/teacher/recommendation/test-result record stores
(`backend/app/db_utils.py`, `courses_db.py`, `test_results.py`) and the
pure utility functions of the sub-agents (`course_validation_agent/agent.py`,
`evaluation_agent/agent.py`).

Modelling conventions:
- A BigQuery table is a `List` of row structures; `SELECT` picks the first
  matching row (`results[0]` in the source), `INSERT` appends, `UPDATE`
  maps over matching rows, `DELETE` filters them out.
- Each database operation returns a pair `(result, post-store)`; read-only
  operations (only `SELECT` statements) return the store unchanged.
- Nullable integer columns are `Option Int`; a Python dict argument with
  optional keys is a structure of `Option` fields (`none` = key absent),
  and `dict.get(k, d)` is `Option.getD`.
- Python exceptions raised by the code (`ValueError`, `TypeError` from
  comparing `None` with an int) are `Except.error` values of `DbError`.
- Wall-clock timestamps are passed in as an explicit `now : String`.
- The network reachability check of `requests.head` is an oracle
  `reach : String → Bool` passed to the link validator.
-/

/-- Substring test on character lists: Python `pat in s`. -/
def charsContains (s pat : List Char) : Bool :=
  match s with
  | [] => pat.isPrefixOf ([] : List Char)
  | c :: rest => pat.isPrefixOf (c :: rest) || charsContains rest pat

/-- Suffix of `s` following the first occurrence of `pat` (for nonempty
`pat` that occurs in `s`; `[]` when `pat` does not occur). -/
def charsAfterFirst (pat : List Char) : List Char → List Char
  | [] => []
  | c :: rest =>
    if pat.isPrefixOf (c :: rest) then List.drop (pat.length - 1) rest
    else charsAfterFirst pat rest

/-- Longest prefix of `s` not containing `pat`: the text up to the next
occurrence of `pat` (all of `s` when `pat` does not occur). -/
def charsUpTo (pat : List Char) : List Char → List Char
  | [] => []
  | c :: rest =>
    if pat.isPrefixOf (c :: rest) then [] else c :: charsUpTo pat rest

/-- Python `pat in s` on strings. -/
def strContains (s pat : String) : Bool :=
  charsContains s.toList pat.toList

/-- Python `s.startswith(p)`. -/
def strStartsWith (s p : String) : Bool :=
  p.toList.isPrefixOf s.toList

/-- First row of a table whose integer key column equals `r`
(`SELECT ... WHERE key = r` followed by `results[0]`). -/
def findRow {α : Type} (key : α → Int) : List α → Int → Option α
  | [], _ => none
  | x :: rest, r => if key x == r then some x else findRow key rest r

/-- The six subject score columns of the `students` table. -/
inductive Subject
  | Language1 | Language2 | Language3 | Maths | Science | Social
  deriving DecidableEq, Fintype

/-- Column name of a subject, as used in the Python dicts and queries. -/
def subjectName : Subject → String
  | .Language1 => "Language1"
  | .Language2 => "Language2"
  | .Language3 => "Language3"
  | .Maths => "Maths"
  | .Science => "Science"
  | .Social => "Social"

/-- Iteration order of the `subjects` dict in `get_weak_subjects`. -/
def subjects_order : List Subject :=
  [.Language1, .Language2, .Language3, .Maths, .Science, .Social]

/-- Row of the `students` table (schema in `StudentDatabase._create_table`):
the six score columns and the timestamp are NULLABLE. -/
structure StudentRow where
  rollNo : Int
  name : String
  grade : Int
  language : String
  language1 : Option Int
  language2 : Option Int
  language3 : Option Int
  maths : Option Int
  science : Option Int
  social : Option Int
  timeStamp : Option String
  deriving DecidableEq

/-- Score of a student row in a given subject column. -/
def subjectScore (r : StudentRow) : Subject → Option Int
  | .Language1 => r.language1
  | .Language2 => r.language2
  | .Language3 => r.language3
  | .Maths => r.maths
  | .Science => r.science
  | .Social => r.social

/-- Errors raised by the database layer (Python `ValueError` / `TypeError`),
carried as structured data instead of interpolated message strings. -/
inductive DbError
  | missingRequiredField (field : String)
  | rollNoRequired
  | notFound (key : Int)
  | typeErr
  deriving DecidableEq

/-- Argument dict of `insert_student` / `update_student`: every key is
optional (`none` = key absent from the dict). -/
structure StudentInsert where
  rollNo : Option Int
  name : Option String
  grade : Option Int
  language : Option String
  language1 : Option Int
  language2 : Option Int
  language3 : Option Int
  maths : Option Int
  science : Option Int
  social : Option Int
  timeStamp : Option String
  deriving DecidableEq

/-- Python `student.get(field, existing[field])` for a nullable column:
a supplied value wins, otherwise the prior (possibly NULL) value stays. -/
def mergeScore (upd old : Option Int) : Option Int :=
  match upd with
  | some v => some v
  | none => old

namespace StudentDatabase

/-- `get_student`: first row of `SELECT * WHERE RollNo = rollno`
(the Python method returns `{}` for a missing student: `none` here). -/
def get_student (store : List StudentRow) (rollno : Int) : Option StudentRow :=
  findRow (fun r => r.rollNo) store rollno

/-- `student_exists`: `SELECT 1 WHERE RollNo = rollno LIMIT 1` is nonempty. -/
def student_exists (store : List StudentRow) (rollno : Int) : Bool :=
  (findRow (fun r => r.rollNo) store rollno).isSome

/-- Row built by `insert_student`'s INSERT from the argument dict, with the
source's `.get` defaults for the non-required fields. -/
def mkStudentRow (now : String) (s : StudentInsert) : StudentRow :=
  { rollNo := s.rollNo.getD 0
    name := s.name.getD ""
    grade := s.grade.getD 1
    language := s.language.getD "English"
    language1 := some (s.language1.getD 0)
    language2 := some (s.language2.getD 0)
    language3 := some (s.language3.getD 0)
    maths := some (s.maths.getD 0)
    science := some (s.science.getD 0)
    social := some (s.social.getD 0)
    timeStamp := some (s.timeStamp.getD now) }

/-- `insert_student`: raises `ValueError` on a missing required field
(RollNo, Name, Grade, Language, checked in that order), otherwise runs
the INSERT; there is no duplicate-key check. -/
def insert_student (now : String) (s : StudentInsert) (store : List StudentRow) :
    Except DbError Unit × List StudentRow :=
  if s.rollNo.isNone then (.error (.missingRequiredField "RollNo"), store)
  else if s.name.isNone then (.error (.missingRequiredField "Name"), store)
  else if s.grade.isNone then (.error (.missingRequiredField "Grade"), store)
  else if s.language.isNone then (.error (.missingRequiredField "Language"), store)
  else (.ok (), store ++ [mkStudentRow now s])

/-- Merge of `update_student`: each supplied field wins over the existing
row's value, the timestamp is set to the current time. -/
def mergedStudentRow (now : String) (s : StudentInsert) (r : Int)
    (existing : StudentRow) : StudentRow :=
  { rollNo := r
    name := s.name.getD existing.name
    grade := s.grade.getD existing.grade
    language := s.language.getD existing.language
    language1 := mergeScore s.language1 existing.language1
    language2 := mergeScore s.language2 existing.language2
    language3 := mergeScore s.language3 existing.language3
    maths := mergeScore s.maths existing.maths
    science := mergeScore s.science existing.science
    social := mergeScore s.social existing.social
    timeStamp := some now }

/-- `update_student`: requires RollNo in the dict, raises when the student
does not exist (the source first runs `student_exists`, then `get_student`
on the same table: both are the same first-match lookup), then merges the
supplied fields over the existing row and runs an UPDATE of every column
on all rows with that RollNo, refreshing the timestamp. -/
def update_student (now : String) (s : StudentInsert) (store : List StudentRow) :
    Except DbError Unit × List StudentRow :=
  match s.rollNo with
  | none => (.error .rollNoRequired, store)
  | some r =>
    match get_student store r with
    | none => (.error (.notFound r), store)
    | some existing =>
      (.ok (), store.map (fun row =>
        if row.rollNo == r then mergedStudentRow now s r existing else row))

/-- Loop body of `get_weak_subjects` over the `subjects` dict: Python
compares `score > 0` where `score` may be `None` (a NULL column), which
raises `TypeError` at the first such subject. -/
def weakLoop (student : StudentRow) (threshold : Int) :
    List Subject → Except DbError (List String)
  | [] => .ok []
  | s :: rest =>
    match subjectScore student s with
    | none => .error .typeErr
    | some v =>
      match weakLoop student threshold rest with
      | .error e => .error e
      | .ok tail => .ok (if 0 < v ∧ v < threshold then subjectName s :: tail else tail)

/-- `get_weak_subjects` (the Python default for `threshold` is 60): returns
`[]` when the student is absent; otherwise collects, in column order, the
subjects with `score > 0 and score < threshold`. Read-only: the store is
returned unchanged. -/
def get_weak_subjects (store : List StudentRow) (rollno : Int) (threshold : Int) :
    Except DbError (List String) × List StudentRow :=
  match get_student store rollno with
  | none => (.ok [], store)
  | some student => (weakLoop student threshold subjects_order, store)

end StudentDatabase

/-- Boolean form of the per-subject test of `get_weak_subjects`
(`score > 0 and score < threshold`, false is never reached on a NULL
score because the comparison raises first). -/
def scoreWeak (student : StudentRow) (threshold : Int) (s : Subject) : Bool :=
  match subjectScore student s with
  | none => false
  | some v => decide (0 < v) && decide (v < threshold)

/-- Row of the `teachers` table (schema in `TeacherDatabase`); `Grades` is
stored as a JSON array string, modelled as the list it encodes. Every
column is REQUIRED. -/
structure TeacherRow where
  staffId : Int
  name : String
  grades : List Int
  subject : String
  timeStamp : String
  deriving DecidableEq

/-- The `{"success": ..., "message": ...}` dicts returned by the teacher
database methods. -/
structure TeacherResult where
  success : Bool
  message : String
  deriving DecidableEq

/-- Python truthiness filter for an optional string argument: `if name:`
skips both an absent argument and an empty string. -/
def truthyStr (o : Option String) : Option String :=
  match o with
  | some s => if s == "" then none else some s
  | none => none

/-- Python truthiness filter for an optional list argument: `if grades:`
skips both an absent argument and an empty list. -/
def truthyList (o : Option (List Int)) : Option (List Int) :=
  match o with
  | some l => if l.isEmpty then none else some l
  | none => none

namespace TeacherDatabase

/-- `get_teacher`: first row of `SELECT ... WHERE StaffID = staff_id LIMIT 1`. -/
def get_teacher (store : List TeacherRow) (staff_id : Int) : Option TeacherRow :=
  findRow (fun t => t.staffId) store staff_id

/-- `teacher_exists`: `SELECT COUNT(*) WHERE StaffID = staff_id` is positive. -/
def teacher_exists (store : List TeacherRow) (staff_id : Int) : Bool :=
  store.any (fun t => t.staffId == staff_id)

/-- SET clause of `update_teacher` built from the truthy arguments only:
each truthy field overwrites, the rest stay, the timestamp is refreshed.
The whole operation: with no truthy argument `update_teacher` returns a
failure dict without touching the store, otherwise it runs this UPDATE on
every row with that StaffID — note there is no existence check, so an
absent StaffID still reports success. -/
def mergedTeacherRow (nameUpd : Option String) (gradesUpd : Option (List Int))
    (subjectUpd : Option String) (now : String) (row : TeacherRow) : TeacherRow :=
  { row with
    name := nameUpd.getD row.name
    grades := gradesUpd.getD row.grades
    subject := subjectUpd.getD row.subject
    timeStamp := now }

/-- The dynamic UPDATE of `update_teacher`, applied to every row with the
requested StaffID. -/
def update_teacher (staff_id : Int) (name : Option String)
    (grades : Option (List Int)) (subject : Option String) (now : String)
    (store : List TeacherRow) : TeacherResult × List TeacherRow :=
  let nameUpd := truthyStr name
  let gradesUpd := truthyList grades
  let subjectUpd := truthyStr subject
  if nameUpd.isNone && gradesUpd.isNone && subjectUpd.isNone then
    ({ success := false, message := "No fields to update" }, store)
  else
    ({ success := true, message := "Teacher profile updated successfully!" },
     store.map (fun row =>
       if row.staffId == staff_id then mergedTeacherRow nameUpd gradesUpd subjectUpd now row
       else row))

end TeacherDatabase

/-- The `subject_column_map` dict of `get_class_average`: maps the six
valid subject names to their score column, anything else to `none`. -/
def subject_column_map (subject : String) : Option Subject :=
  if subject == "Maths" then some .Maths
  else if subject == "Science" then some .Science
  else if subject == "Social" then some .Social
  else if subject == "Language1" then some .Language1
  else if subject == "Language2" then some .Language2
  else if subject == "Language3" then some .Language3
  else none

/-- Python `round` at a rational input: round half to even. -/
def pyRoundRat (x : Rat) : Int :=
  let f := Rat.floor x
  if x - f = 1 / 2 then (if f % 2 = 0 then f else f + 1)
  else Rat.floor (x + 1 / 2)

/-- Python `round(x, 2)`: decimal rounding to two places, half to even. -/
def round2 (x : Rat) : Rat :=
  (pyRoundRat (x * 100) : Rat) / 100

/-- SQL `MIN` over a nonempty list of scores (0 on an empty list, a case
the caller excludes). -/
def listMin : List Int → Int
  | [] => 0
  | x :: xs => xs.foldl min x

/-- SQL `MAX` over a nonempty list of scores. -/
def listMax : List Int → Int
  | [] => 0
  | x :: xs => xs.foldl max x

/-- Result dict of `get_class_average`. -/
inductive ClassAverageResult
  | success (grade : Int) (subject : String) (average_score : Rat)
      (student_count : Nat) (min_score : Int) (max_score : Int)
  | failure (message : String)
  deriving DecidableEq

namespace TeacherDatabase

/-- Scores matched by `get_class_average`'s aggregate query: rows of the
given grade whose score column for the subject is not NULL. -/
def gradeSubjectScores (store : List StudentRow) (grade : Int) (col : Subject) :
    List Int :=
  (store.filter (fun r => r.grade == grade)).filterMap (fun r => subjectScore r col)

/-- `get_class_average`: rejects an unknown subject name before querying;
aggregates AVG/COUNT/MIN/MAX over the non-NULL scores of the grade; with
zero matching rows returns the no-students failure. The source replaces a
falsy (zero) average by the literal 0 before rounding. -/
def get_class_average (grade : Int) (subject : String) (store : List StudentRow) :
    ClassAverageResult :=
  match subject_column_map subject with
  | none => .failure ("Invalid subject: " ++ subject)
  | some col =>
    let scores := gradeSubjectScores store grade col
    if 0 < scores.length then
      let avg : Rat := ((scores.foldl (· + ·) 0 : Int) : Rat) / (scores.length : Rat)
      .success grade subject (if avg = 0 then 0 else round2 avg) scores.length
        (listMin scores) (listMax scores)
    else .failure ("No students found for Grade " ++ toString grade)

end TeacherDatabase

/-- Argument dict of `DatabaseSessionService.insert_employee`. -/
structure EmployeeInsert where
  employeeId : Option Int
  name : Option String
  currentRole : Option String
  team : Option String
  careerGoal : Option String
  timeAllocated : Option Int
  skills : Option String
  timeStamp : Option String
  deriving DecidableEq

/-- Row of the `employees` table; `CurrentRole`, `Team`, `TimeAllocated`
are NULLABLE. `Skills` is stored as a JSON string, `"\x7b\x7d"` when the
key is absent (`json.dumps({})`). -/
structure EmployeeRow where
  employeeId : Int
  name : String
  currentRole : Option String
  team : Option String
  careerGoal : String
  timeAllocated : Option Int
  skills : String
  timeStamp : String
  deriving DecidableEq

namespace DatabaseSessionService

/-- `insert_employee`: raises `ValueError` on a missing required field
(EmployeeId, Name, CareerGoal, checked in that order), otherwise runs the
INSERT with the source's `.get` defaults; no duplicate-key check. -/
def insert_employee (now : String) (e : EmployeeInsert) (store : List EmployeeRow) :
    Except DbError Unit × List EmployeeRow :=
  if e.employeeId.isNone then (.error (.missingRequiredField "EmployeeId"), store)
  else if e.name.isNone then (.error (.missingRequiredField "Name"), store)
  else if e.careerGoal.isNone then (.error (.missingRequiredField "CareerGoal"), store)
  else
    (.ok (),
     store ++ [{ employeeId := e.employeeId.getD 0
                 name := e.name.getD ""
                 currentRole := e.currentRole
                 team := e.team
                 careerGoal := e.careerGoal.getD ""
                 timeAllocated := e.timeAllocated
                 skills := e.skills.getD "\x7b\x7d"
                 timeStamp := e.timeStamp.getD now }])

end DatabaseSessionService

/-- Video dict handled by the course validation agent: every key may be
absent (`none`). The keys are those documented for the agent's input. -/
structure VideoDict where
  author_name : Option String
  video_title : Option String
  video_description : Option String
  video_link : Option String
  video_language : Option String
  video_subject : Option String
  deriving DecidableEq

/-- `is_valid_youtube_link`: false on an empty URL or one without a
`youtube.com` / `youtu.be` marker; otherwise the outcome of the HEAD
request, supplied by the `reach` oracle (a `requests.RequestException`
is caught and yields false, so the oracle covers it). -/
def is_valid_youtube_link (reach : String → Bool) (url : String) : Bool :=
  if url = "" then false
  else if !strContains url "youtube.com" && !strContains url "youtu.be" then false
  else reach url

/-- The id extraction of `filter_videos_with_valid_links`:
`link.split("youtu.be/")[1].split("?")[0]`, i.e. the segment between the
first and second occurrence of `"youtu.be/"` (to the end when there is no
second occurrence), truncated at its first `"?"`. -/
def extract_video_id (link : String) : String :=
  String.mk (charsUpTo ['?']
    (charsUpTo "youtu.be/".toList (charsAfterFirst "youtu.be/".toList link.toList)))

/-- URL normalisation step of `filter_videos_with_valid_links`: short
`youtu.be/` links are rewritten to the long canonical form; a
`youtube.com/watch` link not starting with `https://` gets the scheme
prepended; anything else is left as supplied. -/
def normalize_link (link : String) : String :=
  if strContains link "youtu.be/" then
    "https://www.youtube.com/watch?v=" ++ extract_video_id link
  else if strContains link "youtube.com/watch" && !strStartsWith link "https://" then
    (if strStartsWith link "http" then link else "https://" ++ link)
  else link

/-- `filter_videos_with_valid_links`: skips videos with a missing or empty
link, normalises the rest, validates the normalised link, and keeps the
passing videos (with the normalised link written back) in input order. -/
def filter_videos_with_valid_links (reach : String → Bool) (videos : List VideoDict) :
    List VideoDict :=
  videos.filterMap (fun video =>
    let link := video.video_link.getD ""
    if link = "" then none
    else
      let normalized := normalize_link link
      if is_valid_youtube_link reach normalized then
        some { video with video_link := some normalized }
      else none)

/-- Acceptance test of `filter_videos_with_valid_links` for one video:
a nonempty link whose normalised form passes `is_valid_youtube_link`. -/
def videoAccepted (reach : String → Bool) (video : VideoDict) : Bool :=
  let link := video.video_link.getD ""
  !(link == "") && is_valid_youtube_link reach (normalize_link link)

/-- Canonicalised form of a kept video: its link replaced by the
normalised link. -/
def canonVideo (video : VideoDict) : VideoDict :=
  { video with video_link := some (normalize_link (video.video_link.getD "")) }

/-- Modelled from the spec: the short-form id as the claim words it — the
text between (the first occurrence of) `"youtu.be/"` and the first
following `"?"`. Compared against `extract_video_id` from the source. -/
def specShortFormId (link : String) : String :=
  String.mk (charsUpTo ['?'] (charsAfterFirst "youtu.be/".toList link.toList))

/-- Row of the `student_course_recommendations` table. -/
structure RecRow where
  rollNo : Int
  studentName : String
  videoAuthorName : String
  videoLink : String
  videoLanguage : String
  videoSubject : String
  videoTitle : String
  videoDescription : String
  timeStamp : String
  deriving DecidableEq

namespace StudentCourseRecommendationDatabase

/-- `insert_recommendation`: a plain INSERT of one row. -/
def insert_recommendation (course : RecRow) (store : List RecRow) : List RecRow :=
  store ++ [course]

/-- `delete_student_courses`: `DELETE WHERE RollNo = rollno`. -/
def delete_student_courses (rollno : Int) (store : List RecRow) : List RecRow :=
  store.filter (fun r => !(r.rollNo == rollno))

end StudentCourseRecommendationDatabase

/-- The row `save_validated_videos` builds for one video (the `.get`
defaults of the dict it passes to `insert_recommendation`). -/
def buildRecRow (now : String) (rollno : Int) (student_name : String)
    (video : VideoDict) : RecRow :=
  { rollNo := rollno
    studentName := student_name
    videoAuthorName := video.author_name.getD "Unknown"
    videoTitle := video.video_title.getD ""
    videoDescription := video.video_description.getD ""
    videoLink := video.video_link.getD ""
    videoLanguage := video.video_language.getD "English"
    videoSubject := video.video_subject.getD ""
    timeStamp := now }

/-- `save_validated_videos`: deletes every stored recommendation of the
student, then inserts one row per validated video, and returns the
confirmation string. -/
def save_validated_videos (now : String) (rollno : Int) (student_name : String)
    (validated_videos : List VideoDict) (store : List RecRow) :
    String × List RecRow :=
  let st1 := StudentCourseRecommendationDatabase.delete_student_courses rollno store
  let st2 := validated_videos.foldl
    (fun acc video =>
      StudentCourseRecommendationDatabase.insert_recommendation
        (buildRecRow now rollno student_name video) acc) st1
  ("Successfully saved " ++ toString validated_videos.length ++
     " validated YouTube videos for Roll No " ++ toString rollno ++ ".", st2)

/-- Row of the `student_test_results` table. -/
structure TestResultRow where
  rollNo : Int
  subject : String
  quizScore : Nat
  evaluatedScore : Nat
  totalScore : Nat
  testDate : String
  deriving DecidableEq

/-- Python `round(s / 2)` for a natural `s`: exact halves round to the
even neighbour. -/
def pyRoundHalfNat (s : Nat) : Nat :=
  if s % 2 = 0 then s / 2
  else if (s / 2) % 2 = 0 then s / 2 else s / 2 + 1

/-- `store_results` of the evaluation agent: computes the total score as
`round((quiz_score + evaluated_score) / 2)` and inserts the result row
(scores are 0-100 by the tool's contract, modelled as naturals; the IST
timestamp string is passed in as `now`). -/
def store_results (rollno : Int) (subject : String)
    (quiz_score evaluated_score : Nat) (now : String)
    (store : List TestResultRow) : List TestResultRow :=
  let total_score := pyRoundHalfNat (quiz_score + evaluated_score)
  store ++ [{ rollNo := rollno
              subject := subject
              quizScore := quiz_score
              evaluatedScore := evaluated_score
              totalScore := total_score
              testDate := now }]

/-- Update dict supplying only the roll number (all other keys absent). -/
def updateOnlyRollNo (r : Int) : StudentInsert :=
  { rollNo := some r, name := none, grade := none, language := none
    language1 := none, language2 := none, language3 := none
    maths := none, science := none, social := none, timeStamp := none }

/-- Example teacher row used to instantiate the update theorems. -/
def sampleTeacher : TeacherRow :=
  { staffId := 1, name := "Ravi", grades := [5, 6], subject := "Maths"
    timeStamp := "t0" }

/-- Example student used to instantiate the weak-subject theorems. -/
def sampleStudentC1 : StudentRow :=
  { rollNo := 7, name := "Asha", grade := 5, language := "English"
    language1 := some 0, language2 := some 45, language3 := some 60
    maths := some 100, science := some 59, social := some 1
    timeStamp := some "t0" }

/-- Insert dict with key, name, and language present but grade absent. -/
def candGradeMissing : StudentInsert :=
  { rollNo := some 1, name := some "Asha", grade := none
    language := some "English", language1 := none, language2 := none
    language3 := none, maths := none, science := none, social := none
    timeStamp := none }

/-- Candidate video whose link is not on a video host. -/
def sampleVideoBad : VideoDict :=
  { author_name := some "ChanA", video_title := some "Algebra Basics"
    video_description := some "Intro", video_link := some "https://example.com/video"
    video_language := some "English", video_subject := some "Maths" }

/-- Candidate video with a well-formed long-form video-host link. -/
def sampleVideoGood : VideoDict :=
  { author_name := some "ChanB", video_title := some "Fractions"
    video_description := some "Basics", video_link := some "https://www.youtube.com/watch?v=abc123"
    video_language := some "English", video_subject := some "Maths" }

theorem subjectName_injective : ∀ a b : Subject, subjectName a = subjectName b → a = b := by
  decide

theorem mem_subjects_order (s : Subject) : s ∈ subjects_order := by
  cases s <;> simp [subjects_order]

theorem weakLoop_eq (student : StudentRow) (threshold : Int) :
    ∀ l : List Subject, (∀ s ∈ l, (subjectScore student s).isSome) →
      StudentDatabase.weakLoop student threshold l =
        .ok ((l.filter (scoreWeak student threshold)).map subjectName) := by
  intro l
  induction l with
  | nil => intro _; rfl
  | cons s rest ih =>
    intro h
    obtain ⟨v, hv⟩ := Option.isSome_iff_exists.mp (h s (by simp))
    have hrest := ih (fun x hx => h x (by simp [hx]))
    simp only [StudentDatabase.weakLoop, hv, hrest, List.filter_cons]
    by_cases hw : 0 < v ∧ v < threshold
    · have hsw : scoreWeak student threshold s = true := by
        simp [scoreWeak, hv, hw.1, hw.2]
      simp [hsw, hw]
    · have hsw : scoreWeak student threshold s = false := by
        simp only [scoreWeak, hv]
        rcases not_and_or.mp hw with h1 | h1 <;> simp [h1]
      simp [hsw, hw]

/-- C1: for every stored student and every subject among the six, the
subject's name appears in `get_weak_subjects(rollno, threshold)` iff the
student's score in that subject is strictly greater than 0 and strictly
less than `threshold`; in particular a score of exactly 0, or of
`threshold` (60 by default) or above, never makes the subject weak. -/
theorem claim_C1 (store : List StudentRow) (rollno threshold : Int)
    (student : StudentRow)
    (hget : StudentDatabase.get_student store rollno = some student)
    (hsome : ∀ s : Subject, (subjectScore student s).isSome) :
    ∃ l, (StudentDatabase.get_weak_subjects store rollno threshold).1 = .ok l ∧
      ∀ (s : Subject) (v : Int), subjectScore student s = some v →
        (subjectName s ∈ l ↔ (0 < v ∧ v < threshold)) := by
  refine ⟨(subjects_order.filter (scoreWeak student threshold)).map subjectName, ?_, ?_⟩
  · simp only [StudentDatabase.get_weak_subjects, hget]
    exact weakLoop_eq student threshold subjects_order (fun s _ => hsome s)
  · intro s v hv
    constructor
    · intro hmem
      obtain ⟨a, ha, hname⟩ := List.mem_map.mp hmem
      obtain ⟨hmem2, hsw⟩ := List.mem_filter.mp ha
      have ha2 : a = s := subjectName_injective a s hname
      subst ha2
      simp only [scoreWeak, hv, Bool.and_eq_true, decide_eq_true_eq] at hsw
      exact hsw
    · intro hw
      refine List.mem_map.mpr ⟨s, List.mem_filter.mpr ⟨mem_subjects_order s, ?_⟩, rfl⟩
      simp [scoreWeak, hv, hw.1, hw.2]

theorem claim_C1_witness :
    (StudentDatabase.get_student [sampleStudentC1] 7 = some sampleStudentC1) ∧
    (∀ s : Subject, (subjectScore sampleStudentC1 s).isSome) ∧
    ∃ l, (StudentDatabase.get_weak_subjects [sampleStudentC1] 7 60).1 = .ok l ∧
      ∀ (s : Subject) (v : Int), subjectScore sampleStudentC1 s = some v →
        (subjectName s ∈ l ↔ (0 < v ∧ v < 60)) :=
  ⟨by decide, by decide, claim_C1 [sampleStudentC1] 7 60 sampleStudentC1 (by decide) (by decide)⟩

/-- C10: for a roll number with no stored student, `get_weak_subjects`
returns the empty list (not an error) and leaves the store unchanged. -/
theorem claim_C10 (store : List StudentRow) (rollno threshold : Int)
    (habs : StudentDatabase.get_student store rollno = none) :
    StudentDatabase.get_weak_subjects store rollno threshold = (.ok [], store) := by
  simp [StudentDatabase.get_weak_subjects, habs]

theorem claim_C10_witness :
    (StudentDatabase.get_student [sampleStudentC1] 42 = none) ∧
    StudentDatabase.get_weak_subjects [sampleStudentC1] 42 60 = (.ok [], [sampleStudentC1]) :=
  ⟨by decide, claim_C10 [sampleStudentC1] 42 60 (by decide)⟩


theorem findRow_map_upd {α : Type} (key : α → Int) (upd : α → α) (r : Int)
    (hkey : ∀ x, key x = r → key (upd x) = r) :
    ∀ (store : List α) (a : α),
      findRow key store r = some a →
      findRow key (store.map (fun x => if key x == r then upd x else x)) r
        = some (upd a) := by
  intro store
  induction store with
  | nil => intro a ha; exact absurd ha (by simp [findRow])
  | cons b rest ih =>
    intro a ha
    rw [List.map_cons]
    simp only [findRow] at ha ⊢
    cases hc : key b == r with
    | true =>
      have hb : key b = r := by simpa using hc
      have h2 : (key (upd b) == r) = true := by simp [hkey b hb]
      simp only [hc, eq_self_iff_true, if_true] at ha ⊢
      simp only [h2, eq_self_iff_true, if_true]
      have hba : b = a := Option.some.inj ha
      rw [hba]
    | false =>
      simp only [hc, Bool.false_eq_true, if_false] at ha ⊢
      exact ih a ha

theorem filter_map_upd_ne {α : Type} (key : α → Int) (upd : α → α) (r : Int)
    (hkey : ∀ x, key x = r → key (upd x) = r) :
    ∀ store : List α,
      (store.map (fun x => if key x == r then upd x else x)).filter
        (fun x => !(key x == r)) = store.filter (fun x => !(key x == r)) := by
  intro store
  induction store with
  | nil => rfl
  | cons b rest ih =>
    rw [List.map_cons, List.filter_cons, List.filter_cons]
    cases hc : key b == r with
    | true =>
      have hb : key b = r := by simpa using hc
      have h2 : (key (upd b) == r) = true := by simp [hkey b hb]
      simp only [hc, eq_self_iff_true, if_true, h2, Bool.not_true, Bool.false_eq_true,
        if_false]
      exact ih
    | false =>
      simp only [hc, Bool.false_eq_true, if_false, Bool.not_false, eq_self_iff_true,
        if_true]
      rw [ih]

theorem map_upd_no_match {α : Type} (key : α → Int) (upd : α → α) (r : Int) :
    ∀ store : List α, (∀ x ∈ store, ¬ key x = r) →
      store.map (fun x => if key x == r then upd x else x) = store := by
  intro store
  induction store with
  | nil => intro _; rfl
  | cons b rest ih =>
    intro h
    have hc : (key b == r) = false := by simp [h b (by simp)]
    rw [List.map_cons]
    simp only [hc, Bool.false_eq_true, if_false]
    rw [ih (fun x hx => h x (by simp [hx]))]

/-- C2 counterexample: a teacher update on a staffId that is not stored
reports success instead of the NotFound error the claim requires (the
store does stay unchanged, but no NotFound outcome exists on this path). -/
theorem claim_C2_counterexample :
    TeacherDatabase.teacher_exists [] 1 = false ∧
    TeacherDatabase.update_teacher 1 (some "Bob") none none "t1" [] =
      ({ success := true, message := "Teacher profile updated successfully!" }, []) :=
  ⟨rfl, rfl⟩

/-- Bridge between the SET-clause condition of `update_teacher` (no field
passes the truthiness filter) and its complement (some field does). -/
theorem truthy_cond_iff (nm : Option String) (gr : Option (List Int))
    (sj : Option String) :
    ((truthyStr nm).isNone && (truthyList gr).isNone && (truthyStr sj).isNone) =
      !((truthyStr nm).isSome || (truthyList gr).isSome || (truthyStr sj).isSome) := by
  cases h1 : truthyStr nm <;> cases h2 : truthyList gr <;>
    cases h3 : truthyStr sj <;> rfl

/-- C2 (amended): a student update on an absent rollNumber returns the
NotFound error and leaves the store unchanged; a teacher update on an
absent staffId also leaves the store unchanged, but never returns a
NotFound outcome — it reports success exactly when at least one
effectively-supplied (truthy) field is given, and the no-fields failure
otherwise. -/
theorem claim_C2_amended :
    (∀ (now : String) (s : StudentInsert) (store : List StudentRow) (r : Int),
      s.rollNo = some r → StudentDatabase.get_student store r = none →
      StudentDatabase.update_student now s store = (.error (.notFound r), store)) ∧
    (∀ (staff_id : Int) (name : Option String) (grades : Option (List Int))
        (subject : Option String) (now : String) (store : List TeacherRow),
      TeacherDatabase.teacher_exists store staff_id = false →
      (TeacherDatabase.update_teacher staff_id name grades subject now store).2 = store ∧
      (((truthyStr name).isSome || (truthyList grades).isSome ||
          (truthyStr subject).isSome) = true →
        (TeacherDatabase.update_teacher staff_id name grades subject now store).1 =
          { success := true, message := "Teacher profile updated successfully!" }) ∧
      (((truthyStr name).isSome || (truthyList grades).isSome ||
          (truthyStr subject).isSome) = false →
        (TeacherDatabase.update_teacher staff_id name grades subject now store).1 =
          { success := false, message := "No fields to update" })) := by
  constructor
  · intro now s store r hr habs
    simp [StudentDatabase.update_student, hr, habs]
  · intro sid nm gr sj now store habs
    have hall : ∀ x ∈ store, ¬ x.staffId = sid := by
      intro x hx hxe
      have ht : store.any (fun t => t.staffId == sid) = true :=
        List.any_eq_true.mpr ⟨x, hx, by simp [hxe]⟩
      simp only [TeacherDatabase.teacher_exists] at habs
      rw [habs] at ht
      exact Bool.false_ne_true ht
    refine ⟨?_, ?_, ?_⟩
    · simp only [TeacherDatabase.update_teacher, truthy_cond_iff]
      cases hsup : ((truthyStr nm).isSome || (truthyList gr).isSome ||
          (truthyStr sj).isSome) with
      | false => simp only [hsup, Bool.not_false, eq_self_iff_true, if_true]
      | true =>
        simp only [hsup, Bool.not_true, Bool.false_eq_true, if_false]
        exact map_upd_no_match (fun row => row.staffId)
          (TeacherDatabase.mergedTeacherRow (truthyStr nm) (truthyList gr)
            (truthyStr sj) now) sid store hall
    · intro hsup
      simp only [TeacherDatabase.update_teacher, truthy_cond_iff, hsup, Bool.not_true,
        Bool.false_eq_true, if_false]
    · intro hsup
      simp only [TeacherDatabase.update_teacher, truthy_cond_iff, hsup, Bool.not_false,
        eq_self_iff_true, if_true]

theorem claim_C2_amended_witness :
    (StudentDatabase.update_student "t1" (updateOnlyRollNo 3) [] =
      (.error (.notFound 3), [])) ∧
    ((TeacherDatabase.update_teacher 5 (some "Bob") none none "t1" []).2 = []) ∧
    ((TeacherDatabase.update_teacher 5 (some "Bob") none none "t1" []).1 =
      { success := true, message := "Teacher profile updated successfully!" }) ∧
    ((TeacherDatabase.update_teacher 5 none none none "t1" []).1 =
      { success := false, message := "No fields to update" }) := by
  have h1 := claim_C2_amended.2 5 (some "Bob") none none "t1" [] rfl
  have h2 := claim_C2_amended.2 5 none none none "t1" [] rfl
  exact ⟨claim_C2_amended.1 "t1" (updateOnlyRollNo 3) [] 3 rfl rfl,
    h1.1, h1.2.1 (by decide), h2.2.2 (by decide)⟩

/-- C7 counterexample: a teacher update call on an existing staffId that
supplies the name as the empty string is treated as supplying nothing —
the call returns the no-fields failure, overwrites no field, and does not
refresh the modification timestamp, contradicting the claim that exactly
the supplied fields are overwritten and that the timestamp is refreshed
on every update call. -/
theorem claim_C7_counterexample :
    TeacherDatabase.get_teacher [sampleTeacher] 1 = some sampleTeacher ∧
    TeacherDatabase.update_teacher 1 (some "") none none "t1" [sampleTeacher] =
      ({ success := false, message := "No fields to update" }, [sampleTeacher]) ∧
    sampleTeacher.timeStamp = "t0" ∧ ("t0" : String) ≠ "t1" :=
  ⟨rfl, rfl, rfl, by decide⟩

/-- C7 (amended): on an existing key, a student update overwrites exactly
the supplied fields, keeps every unsupplied field, refreshes the
timestamp, and leaves rows with other roll numbers unchanged. A teacher
update behaves the same with the qualifications the code forces: a field
supplied as an empty string or empty list counts as not supplied; a call
with no effectively-supplied field returns the no-fields failure and
leaves the store — including the stored record and its old timestamp —
completely unchanged; a call with at least one effectively-supplied
field succeeds, overwrites exactly those fields, refreshes the
timestamp, and leaves other staff rows unchanged. -/
theorem claim_C7_amended :
    (∀ (now : String) (s : StudentInsert) (store : List StudentRow) (r : Int)
        (existing : StudentRow),
      s.rollNo = some r → StudentDatabase.get_student store r = some existing →
      ∃ st2, StudentDatabase.update_student now s store = (.ok (), st2) ∧
        (∃ u, StudentDatabase.get_student st2 r = some u ∧
          u.name = s.name.getD existing.name ∧
          u.grade = s.grade.getD existing.grade ∧
          u.language = s.language.getD existing.language ∧
          u.language1 = mergeScore s.language1 existing.language1 ∧
          u.language2 = mergeScore s.language2 existing.language2 ∧
          u.language3 = mergeScore s.language3 existing.language3 ∧
          u.maths = mergeScore s.maths existing.maths ∧
          u.science = mergeScore s.science existing.science ∧
          u.social = mergeScore s.social existing.social ∧
          u.timeStamp = some now) ∧
        st2.filter (fun row => !(row.rollNo == r)) =
          store.filter (fun row => !(row.rollNo == r))) ∧
    (∀ (staff_id : Int) (name : Option String) (grades : Option (List Int))
        (subject : Option String) (now : String) (store : List TeacherRow)
        (existing : TeacherRow),
      TeacherDatabase.get_teacher store staff_id = some existing →
      (((truthyStr name).isSome || (truthyList grades).isSome ||
          (truthyStr subject).isSome) = false →
        TeacherDatabase.update_teacher staff_id name grades subject now store =
          ({ success := false, message := "No fields to update" }, store) ∧
        TeacherDatabase.get_teacher
          (TeacherDatabase.update_teacher staff_id name grades subject now store).2
          staff_id = some existing) ∧
      (((truthyStr name).isSome || (truthyList grades).isSome ||
          (truthyStr subject).isSome) = true →
        (TeacherDatabase.update_teacher staff_id name grades subject now store).1 =
          { success := true, message := "Teacher profile updated successfully!" } ∧
        (∃ u, TeacherDatabase.get_teacher
            (TeacherDatabase.update_teacher staff_id name grades subject now store).2
            staff_id = some u ∧
          u.name = (truthyStr name).getD existing.name ∧
          u.grades = (truthyList grades).getD existing.grades ∧
          u.subject = (truthyStr subject).getD existing.subject ∧
          u.timeStamp = now) ∧
        (TeacherDatabase.update_teacher staff_id name grades subject now store).2.filter
            (fun row => !(row.staffId == staff_id)) =
          store.filter (fun row => !(row.staffId == staff_id)))) := by
  constructor
  · intro now s store r existing hr hex
    have hex2 : findRow (fun row => row.rollNo) store r = some existing := hex
    simp only [StudentDatabase.update_student, hr, hex]
    refine ⟨_, rfl, ?_, ?_⟩
    · have hfind := findRow_map_upd (fun (row : StudentRow) => row.rollNo)
        (fun _ => StudentDatabase.mergedStudentRow now s r existing) r
        (fun x hx => rfl) store existing hex2
      exact ⟨_, hfind, rfl, rfl, rfl, rfl, rfl, rfl, rfl, rfl, rfl, rfl⟩
    · exact filter_map_upd_ne (fun (row : StudentRow) => row.rollNo)
        (fun _ => StudentDatabase.mergedStudentRow now s r existing) r
        (fun x hx => rfl) store
  · intro sid nm gr sj now store existing hex
    have hex2 : findRow (fun row => row.staffId) store sid = some existing := hex
    constructor
    · intro hfalse
      have hupd : TeacherDatabase.update_teacher sid nm gr sj now store =
          ({ success := false, message := "No fields to update" }, store) := by
        simp only [TeacherDatabase.update_teacher, truthy_cond_iff, hfalse,
          Bool.not_false, eq_self_iff_true, if_true]
      rw [hupd]
      exact ⟨rfl, hex⟩
    · intro hsup
      simp only [TeacherDatabase.update_teacher, truthy_cond_iff, hsup, Bool.not_true,
        Bool.false_eq_true, if_false]
      refine ⟨by trivial, ?_, ?_⟩
      · have hfind := findRow_map_upd (fun (row : TeacherRow) => row.staffId)
          (TeacherDatabase.mergedTeacherRow (truthyStr nm) (truthyList gr)
            (truthyStr sj) now) sid (fun x hx => hx) store existing hex2
        exact ⟨_, hfind, rfl, rfl, rfl, rfl⟩
      · exact filter_map_upd_ne (fun (row : TeacherRow) => row.staffId)
          (TeacherDatabase.mergedTeacherRow (truthyStr nm) (truthyList gr)
            (truthyStr sj) now) sid (fun x hx => hx) store

theorem claim_C7_amended_witness :
    (StudentDatabase.get_student [sampleStudentC1] 7 = some sampleStudentC1) ∧
    ((StudentDatabase.update_student "t2" (updateOnlyRollNo 7) [sampleStudentC1]).1
      = .ok ()) ∧
    (TeacherDatabase.get_teacher [sampleTeacher] 1 = some sampleTeacher) ∧
    (TeacherDatabase.update_teacher 1 (some "") none none "t2" [sampleTeacher] =
      ({ success := false, message := "No fields to update" }, [sampleTeacher])) ∧
    ((TeacherDatabase.update_teacher 1 (some "Mira") none none "t2" [sampleTeacher]).1
      = { success := true, message := "Teacher profile updated successfully!" }) := by
  refine ⟨by decide, ?_, by decide, ?_, ?_⟩
  · obtain ⟨st2, heq, -, -⟩ := claim_C7_amended.1 "t2" (updateOnlyRollNo 7)
      [sampleStudentC1] 7 sampleStudentC1 rfl (by decide)
    rw [heq]
  · exact ((claim_C7_amended.2 1 (some "") none none "t2" [sampleTeacher]
      sampleTeacher (by decide)).1 (by decide)).1
  · exact ((claim_C7_amended.2 1 (some "Mira") none none "t2" [sampleTeacher]
      sampleTeacher (by decide)).2 (by decide)).1

/-- C4 counterexample: a student insert supplying the identity key, the
name, and the language preference — every field the claim lists — but
omitting the grade still fails with MissingRequiredField, so the claim's
"exactly when" characterisation is wrong. -/
theorem claim_C4_counterexample :
    candGradeMissing.rollNo.isSome = true ∧ candGradeMissing.name.isSome = true ∧
    candGradeMissing.language.isSome = true ∧
    (StudentDatabase.insert_student "t0" candGradeMissing []).1 =
      .error (.missingRequiredField "Grade") :=
  ⟨rfl, rfl, rfl, rfl⟩

/-- C4 (amended): insert fails with MissingRequiredField exactly when one
of the code's required fields is missing — for a student rollNumber,
name, grade, and language preference; for an employee employeeId, name,
and careerGoal — and the outcome never depends on the stored rows, so a
duplicate key never makes an insert fail. -/
theorem claim_C4_amended :
    (∀ (now : String) (c : StudentInsert) (store : List StudentRow),
      (∃ f, (StudentDatabase.insert_student now c store).1 =
          .error (.missingRequiredField f)) ↔
        (c.rollNo = none ∨ c.name = none ∨ c.grade = none ∨ c.language = none)) ∧
    (∀ (now : String) (c : StudentInsert) (st1 st2 : List StudentRow),
      (StudentDatabase.insert_student now c st1).1 =
        (StudentDatabase.insert_student now c st2).1) ∧
    (∀ (now : String) (e : EmployeeInsert) (store : List EmployeeRow),
      (∃ f, (DatabaseSessionService.insert_employee now e store).1 =
          .error (.missingRequiredField f)) ↔
        (e.employeeId = none ∨ e.name = none ∨ e.careerGoal = none)) ∧
    (∀ (now : String) (e : EmployeeInsert) (st1 st2 : List EmployeeRow),
      (DatabaseSessionService.insert_employee now e st1).1 =
        (DatabaseSessionService.insert_employee now e st2).1) := by
  refine ⟨?_, ?_, ?_, ?_⟩
  · intro now c store
    constructor
    · rintro ⟨f, hf⟩
      by_contra hno
      push_neg at hno
      obtain ⟨h1, h2, h3, h4⟩ := hno
      simp [StudentDatabase.insert_student, Option.isNone_iff_eq_none,
        h1, h2, h3, h4] at hf
    · intro h
      simp only [StudentDatabase.insert_student]
      by_cases h1 : c.rollNo.isNone = true
      · exact ⟨"RollNo", by simp [h1]⟩
      · by_cases h2 : c.name.isNone = true
        · exact ⟨"Name", by simp [h1, h2]⟩
        · by_cases h3 : c.grade.isNone = true
          · exact ⟨"Grade", by simp [h1, h2, h3]⟩
          · by_cases h4 : c.language.isNone = true
            · exact ⟨"Language", by simp [h1, h2, h3, h4]⟩
            · exfalso
              rcases h with h | h | h | h
              · exact h1 (by simp [h])
              · exact h2 (by simp [h])
              · exact h3 (by simp [h])
              · exact h4 (by simp [h])
  · intro now c st1 st2
    simp only [StudentDatabase.insert_student]
    split_ifs <;> rfl
  · intro now e store
    constructor
    · rintro ⟨f, hf⟩
      by_contra hno
      push_neg at hno
      obtain ⟨h1, h2, h3⟩ := hno
      simp [DatabaseSessionService.insert_employee, Option.isNone_iff_eq_none,
        h1, h2, h3] at hf
    · intro h
      simp only [DatabaseSessionService.insert_employee]
      by_cases h1 : e.employeeId.isNone = true
      · exact ⟨"EmployeeId", by simp [h1]⟩
      · by_cases h2 : e.name.isNone = true
        · exact ⟨"Name", by simp [h1, h2]⟩
        · by_cases h3 : e.careerGoal.isNone = true
          · exact ⟨"CareerGoal", by simp [h1, h2, h3]⟩
          · exfalso
            rcases h with h | h | h
            · exact h1 (by simp [h])
            · exact h2 (by simp [h])
            · exact h3 (by simp [h])
  · intro now e st1 st2
    simp only [DatabaseSessionService.insert_employee]
    split_ifs <;> rfl

/-- C5: `get_class_average` returns the Invalid-subject failure for any
subject name outside the six enumerants, with a result independent of
the store (no query is consulted); and when zero students of the grade
have a non-null score for a valid subject it returns the No-students
failure — never a success carrying an average of 0. -/
theorem claim_C5 :
    (∀ (grade : Int) (subject : String) (store store2 : List StudentRow),
      subject_column_map subject = none →
      TeacherDatabase.get_class_average grade subject store =
        .failure ("Invalid subject: " ++ subject) ∧
      TeacherDatabase.get_class_average grade subject store =
        TeacherDatabase.get_class_average grade subject store2) ∧
    (∀ (grade : Int) (subject : String) (col : Subject) (store : List StudentRow),
      subject_column_map subject = some col →
      TeacherDatabase.gradeSubjectScores store grade col = [] →
      TeacherDatabase.get_class_average grade subject store =
        .failure ("No students found for Grade " ++ toString grade)) := by
  constructor
  · intro grade subject store store2 h
    constructor <;> simp [TeacherDatabase.get_class_average, h]
  · intro grade subject col store hcol hempty
    simp [TeacherDatabase.get_class_average, hcol, hempty]

theorem claim_C5_witness :
    (subject_column_map "History" = none ∧
      TeacherDatabase.get_class_average 5 "History" [sampleStudentC1] =
        .failure ("Invalid subject: " ++ "History")) ∧
    (subject_column_map "Maths" = some Subject.Maths ∧
      TeacherDatabase.gradeSubjectScores [sampleStudentC1] 9 Subject.Maths = [] ∧
      TeacherDatabase.get_class_average 9 "Maths" [sampleStudentC1] =
        .failure ("No students found for Grade " ++ toString (9 : Int))) := by
  refine ⟨⟨by decide, ?_⟩, by decide, by decide, ?_⟩
  · exact (claim_C5.1 5 "History" [sampleStudentC1] [] (by decide)).1
  · exact claim_C5.2 9 "Maths" Subject.Maths [sampleStudentC1] (by decide) (by decide)

/-- C6: the total score stored by `store_results` is
`round((quiz + evaluated) / 2)` under round-half-to-even (one of the two
modes the claim permits): twice the total equals the sum when the sum is
even, and for an odd sum the total is the even neighbour of the half;
and the three concrete combinations named by the claim hold. -/
theorem claim_C6 :
    (∀ (rollno : Int) (subject now : String) (q e : Nat)
        (store : List TestResultRow), q ≤ 100 → e ≤ 100 →
      ∃ row, store_results rollno subject q e now store = store ++ [row] ∧
        row.quizScore = q ∧ row.evaluatedScore = e ∧
        (2 * row.totalScore = q + e ∨
          ((q + e) % 2 = 1 ∧ row.totalScore % 2 = 0 ∧
            (2 * row.totalScore = q + e + 1 ∨ 2 * row.totalScore + 1 = q + e)))) ∧
    (store_results 1 "Maths" 80 60 "t" []).map (fun row => row.totalScore) = [70] ∧
    (store_results 1 "Maths" 0 0 "t" []).map (fun row => row.totalScore) = [0] ∧
    (store_results 1 "Maths" 100 100 "t" []).map (fun row => row.totalScore) = [100] := by
  refine ⟨?_, rfl, rfl, rfl⟩
  intro rollno subject now q e store hq he
  simp only [store_results]
  refine ⟨_, rfl, rfl, rfl, ?_⟩
  simp only [pyRoundHalfNat]
  by_cases h1 : (q + e) % 2 = 0
  · rw [if_pos h1]
    left
    omega
  · rw [if_neg h1]
    by_cases h2 : ((q + e) / 2) % 2 = 0
    · rw [if_pos h2]
      right
      omega
    · rw [if_neg h2]
      right
      omega

theorem claim_C6_witness :
    (80 : Nat) ≤ 100 ∧ (60 : Nat) ≤ 100 ∧
    ∃ row, store_results 1 "Maths" 80 60 "t" [] = [] ++ [row] ∧
      row.quizScore = 80 ∧ row.evaluatedScore = 60 ∧
      (2 * row.totalScore = 80 + 60 ∨
        ((80 + 60) % 2 = 1 ∧ row.totalScore % 2 = 0 ∧
          (2 * row.totalScore = 80 + 60 + 1 ∨ 2 * row.totalScore + 1 = 80 + 60))) :=
  ⟨by decide, by decide,
    claim_C6.1 1 "Maths" "t" 80 60 [] (by decide) (by decide)⟩

theorem foldl_insert_eq_append (now : String) (rollno : Int) (nm : String) :
    ∀ (vids : List VideoDict) (init : List RecRow),
      vids.foldl (fun acc video =>
        StudentCourseRecommendationDatabase.insert_recommendation
          (buildRecRow now rollno nm video) acc) init =
      init ++ vids.map (buildRecRow now rollno nm) := by
  intro vids
  induction vids with
  | nil => intro init; simp
  | cons v rest ih =>
    intro init
    simp only [List.foldl_cons, List.map_cons]
    rw [ih]
    simp [StudentCourseRecommendationDatabase.insert_recommendation]

/-- C8: after `save_validated_videos` completes, the stored rows for the
student's roll number are exactly the rows built from the validated
videos, in order (every previously stored recommendation for that roll
number is gone), and the rows of every other roll number are unchanged. -/
theorem claim_C8 (now : String) (rollno : Int) (student_name : String)
    (validated_videos : List VideoDict) (store : List RecRow) :
    ((save_validated_videos now rollno student_name validated_videos store).2.filter
        (fun row => row.rollNo == rollno) =
      validated_videos.map (buildRecRow now rollno student_name)) ∧
    ((save_validated_videos now rollno student_name validated_videos store).2.filter
        (fun row => !(row.rollNo == rollno)) =
      store.filter (fun row => !(row.rollNo == rollno))) := by
  have hst : (save_validated_videos now rollno student_name validated_videos store).2 =
      store.filter (fun r => !(r.rollNo == rollno)) ++
        validated_videos.map (buildRecRow now rollno student_name) := by
    simp only [save_validated_videos,
      StudentCourseRecommendationDatabase.delete_student_courses]
    exact foldl_insert_eq_append now rollno student_name validated_videos _
  have h1 : (store.filter (fun r => !(r.rollNo == rollno))).filter
      (fun row => row.rollNo == rollno) = [] := by
    rw [List.filter_eq_nil_iff]
    intro a ha
    have h := (List.mem_filter.mp ha).2
    simp at h
    simp [h]
  have h2 : (validated_videos.map (buildRecRow now rollno student_name)).filter
      (fun row => row.rollNo == rollno) =
      validated_videos.map (buildRecRow now rollno student_name) := by
    rw [List.filter_eq_self]
    intro a ha
    obtain ⟨v, hv, hva⟩ := List.mem_map.mp ha
    simp [← hva, buildRecRow]
  have h3 : (store.filter (fun r => !(r.rollNo == rollno))).filter
      (fun row => !(row.rollNo == rollno)) =
      store.filter (fun r => !(r.rollNo == rollno)) := by
    rw [List.filter_eq_self]
    intro a ha
    exact (List.mem_filter.mp ha).2
  have h4 : (validated_videos.map (buildRecRow now rollno student_name)).filter
      (fun row => !(row.rollNo == rollno)) = [] := by
    rw [List.filter_eq_nil_iff]
    intro a ha
    obtain ⟨v, hv, hva⟩ := List.mem_map.mp ha
    simp [← hva, buildRecRow]
  rw [hst]
  constructor
  · rw [List.filter_append, h1, h2, List.nil_append]
  · rw [List.filter_append, h3, h4, List.append_nil]

theorem filter_videos_eq (reach : String → Bool) :
    ∀ videos : List VideoDict,
      filter_videos_with_valid_links reach videos =
        (videos.filter (videoAccepted reach)).map canonVideo := by
  intro videos
  induction videos with
  | nil => rfl
  | cons v rest ih =>
    simp only [filter_videos_with_valid_links, List.filterMap_cons,
      List.filter_cons] at ih ⊢
    by_cases hlink : v.video_link.getD "" = ""
    · simp [videoAccepted, hlink, ih]
    · by_cases hvalid :
          is_valid_youtube_link reach (normalize_link (v.video_link.getD "")) = true
      · simp [videoAccepted, canonVideo, hlink, hvalid, ih]
      · simp [videoAccepted, canonVideo, hlink, hvalid, ih]

/-- C3: `filter_videos_with_valid_links` keeps exactly the candidates
whose (nonempty) link passes normalisation plus the reachability check —
the output is the canonicalised form of the accepted candidates, an
in-order sublist of the canonicalised input, with no rejected candidate
present — and on the claim's two-element list (a non-video-host link
followed by a well-formed reachable video-host link) the result is
exactly the second candidate, unchanged, in its relative position. -/
theorem claim_C3 :
    (∀ (reach : String → Bool) (videos : List VideoDict),
      filter_videos_with_valid_links reach videos =
        (videos.filter (videoAccepted reach)).map canonVideo ∧
      List.Sublist (filter_videos_with_valid_links reach videos)
        (videos.map canonVideo)) ∧
    canonVideo sampleVideoGood = sampleVideoGood ∧
    filter_videos_with_valid_links (fun _ => true) [sampleVideoBad, sampleVideoGood] =
      [sampleVideoGood] := by
  refine ⟨?_, by decide, by decide⟩
  intro reach videos
  refine ⟨filter_videos_eq reach videos, ?_⟩
  rw [filter_videos_eq reach videos]
  exact List.Sublist.map canonVideo (List.filter_sublist videos)

/-- C9 counterexample: in a link where "youtu.be/" occurs twice, the
code's id is the segment between the first and second occurrence (empty
here), not the text between "youtu.be/" and the first "?" that the claim
describes, so the rewritten canonical link differs from the claimed one. -/
theorem claim_C9_counterexample :
    strContains "https://youtu.be/youtu.be/x" "youtu.be/" = true ∧
    normalize_link "https://youtu.be/youtu.be/x" = "https://www.youtube.com/watch?v=" ∧
    specShortFormId "https://youtu.be/youtu.be/x" = "youtu.be/x" ∧
    normalize_link "https://youtu.be/youtu.be/x" ≠
      "https://www.youtube.com/watch?v=" ++
        specShortFormId "https://youtu.be/youtu.be/x" := by
  refine ⟨by decide, by decide, by decide, by decide⟩

theorem charsUpTo_eq_of_not_contains (pat : List Char) :
    ∀ l : List Char, charsContains l pat = false → charsUpTo pat l = l := by
  intro l
  induction l with
  | nil => intro _; rfl
  | cons c rest ih =>
    intro h
    simp only [charsContains] at h
    cases hp : pat.isPrefixOf (c :: rest) with
    | true => rw [hp] at h; simp at h
    | false =>
      rw [hp] at h
      simp only [Bool.false_or] at h
      simp only [charsUpTo, hp, Bool.false_eq_true, if_false]
      rw [ih h]

/-- C9 (amended): a string without a "youtube.com" or "youtu.be" marker —
including the empty string — is always rejected by the link validator,
for every reachability outcome and without raising; every link containing
"youtu.be/" is rewritten to `https://www.youtube.com/watch?v=<id>` where
`<id>` is the segment between the first and second occurrence of
"youtu.be/" (to the end when there is no second occurrence) truncated at
its first "?"; whenever the marker occurs only once this coincides with
the claim's "text between 'youtu.be/' and the first '?'". -/
theorem claim_C9_amended :
    (∀ (reach : String → Bool) (url : String),
      strContains url "youtube.com" = false → strContains url "youtu.be" = false →
      is_valid_youtube_link reach url = false) ∧
    (∀ link : String, strContains link "youtu.be/" = true →
      normalize_link link =
        "https://www.youtube.com/watch?v=" ++ extract_video_id link) ∧
    (∀ link : String,
      charsContains (charsAfterFirst "youtu.be/".toList link.toList)
        "youtu.be/".toList = false →
      extract_video_id link = specShortFormId link) := by
  refine ⟨?_, ?_, ?_⟩
  · intro reach url h1 h2
    by_cases hu : url = ""
    · simp [is_valid_youtube_link, hu]
    · simp [is_valid_youtube_link, hu, h1, h2]
  · intro link h
    simp [normalize_link, h]
  · intro link h
    simp only [extract_video_id, specShortFormId]
    rw [charsUpTo_eq_of_not_contains _ _ h]

theorem claim_C9_amended_witness :
    (strContains "https://example.com/a" "youtube.com" = false ∧
      strContains "https://example.com/a" "youtu.be" = false ∧
      is_valid_youtube_link (fun _ => true) "https://example.com/a" = false) ∧
    (strContains "https://youtu.be/abc?t=1" "youtu.be/" = true ∧
      normalize_link "https://youtu.be/abc?t=1" =
        "https://www.youtube.com/watch?v=" ++ extract_video_id "https://youtu.be/abc?t=1") ∧
    (charsContains (charsAfterFirst "youtu.be/".toList "https://youtu.be/abc?t=1".toList)
        "youtu.be/".toList = false ∧
      extract_video_id "https://youtu.be/abc?t=1" =
        specShortFormId "https://youtu.be/abc?t=1") := by
  refine ⟨⟨by decide, by decide, ?_⟩, ⟨by decide, ?_⟩, ⟨by decide, ?_⟩⟩
  · exact claim_C9_amended.1 (fun _ => true) "https://example.com/a" (by decide) (by decide)
  · exact claim_C9_amended.2.1 "https://youtu.be/abc?t=1" (by decide)
  · exact claim_C9_amended.2.2 "https://youtu.be/abc?t=1" (by decide)
